import Mathlib

/-!
Shallow embedding of the interactive waveform plotter (`src/app.py`).

The core of the program is the class `WaveformGenerator` (a sampling
configuration plus the pure sample-synthesis method `_generate_wave`) and the
two Socket.IO handlers `test_connect` (the `connect` event) and
`handle_update_params` (the `update_params` event).  Python floats are
modelled as real numbers; `numpy` array operations are modelled pointwise on
lists of reals; the fallible Python `float(...)` coercion is modelled as an
`Except`-valued conversion; a handler's `emit` calls are modelled by the
messages it returns.
-/

noncomputable section

/-- The sample count of `WaveformGenerator.__init__`:
`int(sample_rate * duration)`, Python truncation of a nonnegative product,
i.e. the natural-number floor. -/
def sampleCount (sample_rate : ℕ) (duration : ℝ) : ℕ :=
  ⌊(sample_rate : ℝ) * duration⌋₊

/-- `np.linspace(0, duration, n, endpoint=False)`: the `n` evenly spaced
points `i * (duration / n)` for `i = 0 .. n-1`. -/
def linspace (duration : ℝ) (n : ℕ) : List ℝ :=
  (List.range n).map (fun i : ℕ => duration * (i : ℝ) / (n : ℝ))

/-- `self.time_points` of a `WaveformGenerator(sample_rate, duration)`. -/
def time_points (sample_rate : ℕ) (duration : ℝ) : List ℝ :=
  linspace duration (sampleCount sample_rate duration)

/-- `np.sign` on a real scalar: positive to `1`, negative to `-1`, zero
to `0`. -/
def np_sign (x : ℝ) : ℝ :=
  if 0 < x then 1 else if x < 0 then -1 else 0

/-- Truncation toward zero on the reals, the rounding used by C-style
floating remainders. -/
def trunc_toward_zero (x : ℝ) : ℤ :=
  if 0 ≤ x then ⌊x⌋ else ⌈x⌉

/-- `np.fmod x y`: the C `fmod`, `x - y * trunc(x / y)`; its result carries
the sign of `x` and is NOT normalized into `[0, y)` for negative `x`. -/
def np_fmod (x y : ℝ) : ℝ :=
  x - y * (trunc_toward_zero (x / y) : ℝ)

/-- `WaveformGenerator._generate_wave(wave_type, frequency, amplitude)` on a
generator built with the given `sample_rate` and `duration` (lines 55-64 of
`src/app.py`). -/
def generate_wave (wave_type : String) (frequency amplitude : ℝ)
    (sample_rate : ℕ) (duration : ℝ) : List ℝ :=
  if wave_type = "sine" then
    (time_points sample_rate duration).map
      (fun t => amplitude * Real.sin (2 * Real.pi * frequency * t))
  else if wave_type = "square" then
    (time_points sample_rate duration).map
      (fun t => amplitude * np_sign (Real.sin (2 * Real.pi * frequency * t)))
  else if wave_type = "sawtooth" then
    (time_points sample_rate duration).map
      (fun t => amplitude * (2 * np_fmod (t * frequency) 1 - 1))
  else
    (time_points sample_rate duration).map (fun _ => 0)

/-- A loosely-typed payload field value as received over the socket: either
something Python's `float(...)` converts to the real `x` (a number or a
numeric string), or something on which `float(...)` raises (a non-numeric
string, `None`, a list, ...). -/
inductive PyVal where
  | numeric (x : ℝ)
  | nonNumeric (descr : String)

/-- Python `float(...)` as a fallible conversion. -/
def pyFloat : PyVal → Except String ℝ
  | .numeric x => .ok x
  | .nonNumeric d => .error (String.append ("could not convert to float: ") d)

/-- The `update_params` payload: all three fields optional (`dict.get`
supplies the documented default when a field is absent). -/
structure UpdatePayload where
  type? : Option String
  frequency? : Option PyVal
  amplitude? : Option PyVal

/-- The `params` sub-object echoed in a `waveform_data` message. -/
structure WaveParams where
  type : String
  frequency : ℝ
  amplitude : ℝ

/-- One `waveform_data` message: the sample list plus the echoed, post-clamp
parameters. -/
structure WaveformMessage where
  data : List ℝ
  params : WaveParams

/-- Line 120 of `src/app.py`: `max(0.1, min(frequency, 20.0))`. -/
def clampFrequency (frequency : ℝ) : ℝ := max 0.1 (min frequency 20)

/-- Line 121 of `src/app.py`: `max(0.0, min(amplitude, 1.0))`. -/
def clampAmplitude (amplitude : ℝ) : ℝ := max 0 (min amplitude 1)

/-- `handle_update_params` (the `update_params` handler): read the fields with
defaults, coerce `frequency` and `amplitude` with the unguarded `float(...)`
(an error aborts the handler before clamping, synthesis and `emit`), clamp
both, synthesize with a fresh default `WaveformGenerator()` and emit exactly
one `waveform_data` message back to the sender. -/
def handle_update_params (p : UpdatePayload) : Except String WaveformMessage :=
  match pyFloat ((p.frequency?).getD (.numeric 1)) with
  | .error e => .error e
  | .ok frequency0 =>
    match pyFloat ((p.amplitude?).getD (.numeric 0.5)) with
    | .error e => .error e
    | .ok amplitude0 =>
      let wave_type := (p.type?).getD ("sine")
      let frequency := clampFrequency frequency0
      let amplitude := clampAmplitude amplitude0
      .ok ⟨generate_wave wave_type frequency amplitude 1000 1,
           ⟨wave_type, frequency, amplitude⟩⟩

/-- `test_connect` (the `connect` handler): the messages emitted to the newly
connected client — a single `waveform_data` message computed from the fixed
`initial_params` with a default `WaveformGenerator()`. -/
def test_connect : List WaveformMessage :=
  [⟨generate_wave ("sine") 2 0.7 1000 1, ⟨"sine", 2, 0.7⟩⟩]

/-- Whether an `Except` result is a success (used to state, without binders,
that a handler emitted a message). -/
def exceptIsOk {α : Type} : Except String α → Bool
  | .ok _ => true
  | .error _ => false

end

/-! ### Basic structural lemmas -/

theorem linspace_length (duration : ℝ) (n : ℕ) : (linspace duration n).length = n := by
  simp only [linspace, List.length_map, List.length_range]

theorem time_points_length (sample_rate : ℕ) (duration : ℝ) :
    (time_points sample_rate duration).length = sampleCount sample_rate duration := by
  simp only [time_points]
  exact linspace_length _ _

theorem generate_wave_length (wave_type : String) (frequency amplitude : ℝ)
    (sample_rate : ℕ) (duration : ℝ) :
    (generate_wave wave_type frequency amplitude sample_rate duration).length
      = sampleCount sample_rate duration := by
  have h : ∀ f : ℝ → ℝ,
      ((time_points sample_rate duration).map f).length
        = sampleCount sample_rate duration := by
    intro f
    simp only [List.length_map]
    exact time_points_length _ _
  unfold generate_wave
  split
  · exact h _
  split
  · exact h _
  split
  · exact h _
  · exact h _

theorem getD_map_of_lt {α β : Type} (l : List α) (f : α → β) (i : ℕ)
    (h : i < l.length) (d : β) (d' : α) :
    (l.map f).getD i d = f (l.getD i d') := by
  simp [List.getD_eq_getElem?_getD, List.getElem?_eq_getElem, h]

theorem time_points_getD (sample_rate : ℕ) (duration : ℝ) (i : ℕ)
    (h : i < sampleCount sample_rate duration) :
    (time_points sample_rate duration).getD i 0
      = duration * i / (sampleCount sample_rate duration) := by
  have hlen : i < (List.range (sampleCount sample_rate duration)).length := by
    simpa using h
  simp only [time_points, linspace]
  rw [getD_map_of_lt _ _ _ hlen _ 0]
  rw [List.getD_eq_getElem?_getD, List.getElem?_range h]
  rfl

theorem sampleCount_default : sampleCount 1000 1 = 1000 := by
  rw [sampleCount]
  norm_num

theorem generate_wave_sine (frequency amplitude : ℝ) (sample_rate : ℕ) (duration : ℝ) :
    generate_wave ("sine") frequency amplitude sample_rate duration
      = (time_points sample_rate duration).map
          (fun t => amplitude * Real.sin (2 * Real.pi * frequency * t)) := by
  unfold generate_wave
  rw [if_pos rfl]

theorem generate_wave_square (frequency amplitude : ℝ) (sample_rate : ℕ) (duration : ℝ) :
    generate_wave ("square") frequency amplitude sample_rate duration
      = (time_points sample_rate duration).map
          (fun t => amplitude * np_sign (Real.sin (2 * Real.pi * frequency * t))) := by
  unfold generate_wave
  rw [if_neg (by decide), if_pos rfl]

theorem generate_wave_sawtooth (frequency amplitude : ℝ) (sample_rate : ℕ) (duration : ℝ) :
    generate_wave ("sawtooth") frequency amplitude sample_rate duration
      = (time_points sample_rate duration).map
          (fun t => amplitude * (2 * np_fmod (t * frequency) 1 - 1)) := by
  unfold generate_wave
  rw [if_neg (by decide), if_neg (by decide), if_pos rfl]

theorem generate_wave_of_unknown (wave_type : String) (frequency amplitude : ℝ)
    (sample_rate : ℕ) (duration : ℝ) (h1 : wave_type ≠ "sine")
    (h2 : wave_type ≠ "square") (h3 : wave_type ≠ "sawtooth") :
    generate_wave wave_type frequency amplitude sample_rate duration
      = List.replicate (sampleCount sample_rate duration) 0 := by
  unfold generate_wave
  rw [if_neg h1, if_neg h2, if_neg h3, List.map_const', time_points_length]

theorem np_fmod_one_of_nonneg (x : ℝ) (hx : 0 ≤ x) : np_fmod x 1 = Int.fract x := by
  unfold np_fmod trunc_toward_zero
  rw [div_one, if_pos hx, one_mul]
  rfl

theorem np_sign_cases (x : ℝ) : np_sign x = 1 ∨ np_sign x = 0 ∨ np_sign x = -1 := by
  unfold np_sign
  split
  · exact Or.inl rfl
  split
  · exact Or.inr (Or.inr rfl)
  · exact Or.inr (Or.inl rfl)

/-! ### Claim theorems -/

/-- C3: for every shape, frequency and amplitude, and every positive integer
`sampleRate` and positive real `duration`, the synthesizer output length
equals `sampleCount = floor(sampleRate * duration)`. -/
theorem synthesize_output_length (wave_type : String) (sample_rate : ℕ)
    (duration frequency amplitude : ℝ) (hsr : 0 < sample_rate) (hd : 0 < duration) :
    (generate_wave wave_type frequency amplitude sample_rate duration).length
      = sampleCount sample_rate duration :=
  generate_wave_length wave_type frequency amplitude sample_rate duration

/-- Witness for C3, at the default config: 1000 samples for
`sampleRate = 1000`, `duration = 1`. -/
theorem synthesize_output_length_witness :
    0 < 1000 ∧ (0:ℝ) < 1
    ∧ (generate_wave ("sine") 2 0.7 1000 1).length = 1000 := by
  refine ⟨by norm_num, by norm_num, ?_⟩
  rw [synthesize_output_length ("sine") 1000 1 2 0.7 (by norm_num) (by norm_num)]
  exact sampleCount_default

/-- C4: the handler clamps frequency into `[0.1, 20.0]` and amplitude into
`[0.0, 1.0]`, replacing out-of-range values with the nearest bound, leaving
in-range values (bounds included) unchanged; in particular
`clamp 25.0 = 20.0`, `clamp 0.0 = 0.1` for frequency and `clamp 1.5 = 1.0`,
`clamp (-0.2) = 0.0` for amplitude. -/
theorem clamping_spec (frequency amplitude : ℝ) :
    (0.1 ≤ frequency → frequency ≤ 20 → clampFrequency frequency = frequency)
    ∧ (frequency ≤ 0.1 → clampFrequency frequency = 0.1)
    ∧ (20 ≤ frequency → clampFrequency frequency = 20)
    ∧ (0 ≤ amplitude → amplitude ≤ 1 → clampAmplitude amplitude = amplitude)
    ∧ (amplitude ≤ 0 → clampAmplitude amplitude = 0)
    ∧ (1 ≤ amplitude → clampAmplitude amplitude = 1)
    ∧ clampFrequency 25 = 20
    ∧ clampFrequency 0 = 0.1
    ∧ clampAmplitude 1.5 = 1
    ∧ clampAmplitude (-0.2) = 0 := by
  unfold clampFrequency clampAmplitude
  refine ⟨?_, ?_, ?_, ?_, ?_, ?_, ?_, ?_, ?_, ?_⟩
  · intro h1 h2
    rw [min_eq_left h2, max_eq_right h1]
  · intro h
    rw [min_eq_left (le_trans h (by norm_num)), max_eq_left h]
  · intro h
    rw [min_eq_right h]
    exact max_eq_right (by norm_num)
  · intro h1 h2
    rw [min_eq_left h2, max_eq_right h1]
  · intro h
    rw [min_eq_left (le_trans h (by norm_num)), max_eq_left h]
  · intro h
    rw [min_eq_right h]
    exact max_eq_right (by norm_num)
  · rw [min_eq_right (by norm_num : (20:ℝ) ≤ 25)]
    exact max_eq_right (by norm_num)
  · rw [min_eq_left (by norm_num : (0:ℝ) ≤ 20)]
    exact max_eq_left (by norm_num)
  · rw [min_eq_right (by norm_num : (1:ℝ) ≤ 1.5)]
    exact max_eq_right (by norm_num)
  · rw [min_eq_left (by norm_num : (-0.2:ℝ) ≤ 1)]
    exact max_eq_left (by norm_num)

/-- Witness for C4: clamping the in-range frequency `5` and the out-of-range
amplitude `1.5`. -/
theorem clamping_spec_witness :
    clampFrequency 5 = 5 ∧ clampAmplitude 1.5 = 1 :=
  ⟨(clamping_spec 5 1.5).1 (by norm_num) (by norm_num),
   (clamping_spec 5 1.5).2.2.2.2.2.2.2.2.1⟩

/-- C9: an unrecognized shape raises no error and synthesizes to the all-zero
sequence with the same length as the time axis. -/
theorem unknown_shape_silence (wave_type : String) (frequency amplitude : ℝ)
    (sample_rate : ℕ) (duration : ℝ)
    (h : wave_type ∉ (["sine", "square", "sawtooth"] : List String)) :
    generate_wave wave_type frequency amplitude sample_rate duration
      = List.replicate (sampleCount sample_rate duration) 0
    ∧ (generate_wave wave_type frequency amplitude sample_rate duration).length
        = (time_points sample_rate duration).length := by
  simp only [List.mem_cons, List.mem_singleton, not_or] at h
  obtain ⟨h1, h2, h3, -⟩ := h
  refine ⟨generate_wave_of_unknown _ _ _ _ _ h1 h2 h3, ?_⟩
  rw [generate_wave_length, time_points_length]

/-- Witness for C9: `synthesize("glitch", 5.0, 0.5, defaultConfig)` is 1000
zeros. -/
theorem unknown_shape_silence_witness :
    ("glitch" : String) ∉ (["sine", "square", "sawtooth"] : List String)
    ∧ generate_wave ("glitch") 5 0.5 1000 1 = List.replicate 1000 0 := by
  refine ⟨by decide, ?_⟩
  have h := (unknown_shape_silence ("glitch") 5 0.5 1000 1 (by decide)).1
  rwa [sampleCount_default] at h

/-- C10: shape dispatch is an exact, case-sensitive string comparison against
the three recognized names; any other string — including capitalized variants
such as "Sine" or "SQUARE" — synthesizes to the all-zero sequence. -/
theorem case_sensitive_dispatch (wave_type : String) (frequency amplitude : ℝ)
    (sample_rate : ℕ) (duration : ℝ) :
    (wave_type ≠ "sine" → wave_type ≠ "square" → wave_type ≠ "sawtooth" →
      generate_wave wave_type frequency amplitude sample_rate duration
        = List.replicate (sampleCount sample_rate duration) 0)
    ∧ generate_wave ("Sine") frequency amplitude sample_rate duration
        = List.replicate (sampleCount sample_rate duration) 0
    ∧ generate_wave ("SQUARE") frequency amplitude sample_rate duration
        = List.replicate (sampleCount sample_rate duration) 0 :=
  ⟨fun h1 h2 h3 => generate_wave_of_unknown _ _ _ _ _ h1 h2 h3,
   generate_wave_of_unknown _ _ _ _ _ (by decide) (by decide) (by decide),
   generate_wave_of_unknown _ _ _ _ _ (by decide) (by decide) (by decide)⟩

/-- Witness for C10: the capitalized "Sine" is treated as unknown under the
default config. -/
theorem case_sensitive_dispatch_witness :
    generate_wave ("Sine") 2 0.7 1000 1 = List.replicate 1000 0 := by
  have h := (case_sensitive_dispatch ("Sine") 2 0.7 1000 1).1
    (by decide) (by decide) (by decide)
  rwa [sampleCount_default] at h

/-- C1 (amended): each sine sample is `amplitude * sin(2π · frequency · t_i)`
where the time axis produced by `np.linspace(0, duration, sampleCount,
endpoint=False)` is `t_i = i * duration / sampleCount`; this coincides with
the spec's `t_i = i / sampleRate` exactly when `sampleRate * duration` is an
integer. -/
theorem sine_sample_formula (sample_rate : ℕ) (duration frequency amplitude : ℝ)
    (i : ℕ) (hsr : 0 < sample_rate) (hd : 0 < duration)
    (hi : i < sampleCount sample_rate duration) :
    (generate_wave ("sine") frequency amplitude sample_rate duration).getD i 0
      = amplitude * Real.sin (2 * Real.pi * frequency
          * (duration * i / (sampleCount sample_rate duration)))
    ∧ ((sample_rate : ℝ) * duration = (sampleCount sample_rate duration : ℝ) →
        duration * i / (sampleCount sample_rate duration) = (i : ℝ) / sample_rate) := by
  constructor
  · have hlen : i < (time_points sample_rate duration).length := by
      rw [time_points_length]
      exact hi
    rw [generate_wave_sine, getD_map_of_lt _ _ _ hlen _ 0, time_points_getD _ _ _ hi]
  · intro hN
    rw [← hN, mul_comm (sample_rate : ℝ) duration,
      mul_div_mul_left _ _ (ne_of_gt hd)]

/-- Witness for C1 at the default config, sample 0. -/
theorem sine_sample_formula_witness :
    0 < 1000 ∧ (0:ℝ) < 1 ∧ 0 < sampleCount 1000 1
    ∧ (generate_wave ("sine") 2 0.7 1000 1).getD 0 0
        = 0.7 * Real.sin (2 * Real.pi * 2 * (1 * ((0:ℕ):ℝ) / (sampleCount 1000 1 : ℝ))) := by
  have hc : 0 < sampleCount 1000 1 := by
    rw [sampleCount_default]
    norm_num
  exact ⟨by norm_num, by norm_num, hc,
    (sine_sample_formula 1000 1 2 0.7 0 (by norm_num) (by norm_num) hc).1⟩

/-- C1 counterexample: with `sampleRate = 2` and `duration = 5/4`,
`sampleCount = ⌊5/2⌋ = 2` and the linspace spacing is `5/8`, not
`1/sampleRate = 1/2`; sample 1 of the sine wave at `frequency = 1`,
`amplitude = 1` is `sin(5π/4) < 0`, not the claimed
`sin(2π · 1 · (1/2)) = sin π = 0`. -/
theorem sine_time_axis_counterexample :
    (generate_wave ("sine") 1 1 2 (5/4)).getD 1 0
      ≠ 1 * Real.sin (2 * Real.pi * 1 * ((1:ℝ) / 2)) := by
  have hcount : sampleCount 2 (5/4) = 2 := by
    rw [sampleCount]
    rw [show ((2:ℕ):ℝ) * (5/4) = 5/2 by norm_num]
    rw [Nat.floor_eq_iff (by norm_num)]
    norm_num
  have hi : 1 < sampleCount 2 (5/4) := by
    rw [hcount]
    norm_num
  have hlen : 1 < (time_points 2 (5/4)).length := by
    rw [time_points_length]
    exact hi
  rw [generate_wave_sine, getD_map_of_lt _ _ _ hlen _ 0, time_points_getD _ _ _ hi, hcount]
  have h1 : 2 * Real.pi * 1 * ((5:ℝ)/4 * ((1:ℕ):ℝ) / ((2:ℕ):ℝ))
      = -(3 * Real.pi / 4) + 2 * Real.pi := by
    push_cast
    ring
  have h2 : 2 * Real.pi * 1 * ((1:ℝ) / 2) = Real.pi := by ring
  rw [h1, h2, Real.sin_pi, Real.sin_add_two_pi]
  have hneg : Real.sin (-(3 * Real.pi / 4)) < 0 :=
    Real.sin_neg_of_neg_of_neg_pi_lt (by nlinarith [Real.pi_pos]) (by nlinarith [Real.pi_pos])
  simp only [one_mul, mul_zero]
  exact ne_of_lt hneg

/-- C2 (amended): for nonnegative frequency (so that the argument of the
unnormalized `np.fmod` is nonnegative and it agrees with `frac`) and positive
amplitude, each sawtooth sample equals
`amplitude * (2 * frac(t_i * frequency) - 1)` with `frac(x) = x - floor(x)`
in `[0, 1)`, hence lies in `[-amplitude, amplitude)`. -/
theorem sawtooth_formula_and_range (sample_rate : ℕ) (duration frequency amplitude : ℝ)
    (i : ℕ) (hd : 0 < duration) (hf : 0 ≤ frequency) (ha : 0 < amplitude)
    (hi : i < sampleCount sample_rate duration) :
    (generate_wave ("sawtooth") frequency amplitude sample_rate duration).getD i 0
      = amplitude * (2 * Int.fract (duration * i / (sampleCount sample_rate duration) * frequency) - 1)
    ∧ (0:ℝ) ≤ Int.fract (duration * i / (sampleCount sample_rate duration) * frequency)
    ∧ Int.fract (duration * i / (sampleCount sample_rate duration) * frequency) < 1
    ∧ -amplitude ≤ (generate_wave ("sawtooth") frequency amplitude sample_rate duration).getD i 0
    ∧ (generate_wave ("sawtooth") frequency amplitude sample_rate duration).getD i 0 < amplitude := by
  have hlen : i < (time_points sample_rate duration).length := by
    rw [time_points_length]
    exact hi
  have ht : (0:ℝ) ≤ duration * i / (sampleCount sample_rate duration) :=
    div_nonneg (mul_nonneg hd.le (Nat.cast_nonneg _)) (Nat.cast_nonneg _)
  have hform : (generate_wave ("sawtooth") frequency amplitude sample_rate duration).getD i 0
      = amplitude * (2 * Int.fract (duration * i / (sampleCount sample_rate duration) * frequency) - 1) := by
    rw [generate_wave_sawtooth, getD_map_of_lt _ _ _ hlen _ 0, time_points_getD _ _ _ hi,
      np_fmod_one_of_nonneg _ (mul_nonneg ht hf)]
  have h0 := Int.fract_nonneg (duration * i / (sampleCount sample_rate duration) * frequency)
  have h1 := Int.fract_lt_one (duration * i / (sampleCount sample_rate duration) * frequency)
  refine ⟨hform, h0, h1, ?_, ?_⟩
  · rw [hform]
    nlinarith
  · rw [hform]
    nlinarith

/-- Witness for C2, matching the end-to-end example `frequency = 20`,
`amplitude = 1` at sample 0 of the default config. -/
theorem sawtooth_formula_and_range_witness :
    (0:ℝ) < 1 ∧ (0:ℝ) ≤ 20 ∧ (0:ℝ) < 1 ∧ 0 < sampleCount 1000 1
    ∧ -1 ≤ (generate_wave ("sawtooth") 20 1 1000 1).getD 0 0
    ∧ (generate_wave ("sawtooth") 20 1 1000 1).getD 0 0 < 1 := by
  have hc : 0 < sampleCount 1000 1 := by
    rw [sampleCount_default]
    norm_num
  have h := sawtooth_formula_and_range 1000 1 20 1 0 (by norm_num) (by norm_num) (by norm_num) hc
  exact ⟨by norm_num, by norm_num, by norm_num, hc, h.2.2.2.1, h.2.2.2.2⟩

/-- C2 counterexample: at `frequency = -1` (with `sampleRate = 2`,
`duration = 1`, `amplitude = 1`) the unnormalized `np.fmod` gives `-1/2` at
`t_1 = 1/2`, so the code's sample is `-2`: outside `[-1, 1)` and different
from the value `0` of the claimed normalized-frac formula. -/
theorem sawtooth_negative_frequency_counterexample :
    (generate_wave ("sawtooth") (-1) 1 2 1).getD 1 0 = -2
    ∧ ¬ ((-2:ℝ) ∈ Set.Ico (-1:ℝ) 1)
    ∧ (1:ℝ) * (2 * Int.fract (((1:ℝ)/2) * (-1)) - 1) = 0 := by
  have hcount : sampleCount 2 1 = 2 := by
    rw [sampleCount]
    norm_num
  have hi : 1 < sampleCount 2 1 := by
    rw [hcount]
    norm_num
  have hlen : 1 < (time_points 2 1).length := by
    rw [time_points_length]
    exact hi
  refine ⟨?_, ?_, ?_⟩
  · rw [generate_wave_sawtooth, getD_map_of_lt _ _ _ hlen _ 0, time_points_getD _ _ _ hi, hcount]
    have harg : (1:ℝ) * ((1:ℕ):ℝ) / ((2:ℕ):ℝ) * (-1) = -(1/2) := by
      push_cast
      ring
    rw [harg]
    unfold np_fmod trunc_toward_zero
    rw [div_one, if_neg (by norm_num), Int.ceil_neg]
    norm_num
  · norm_num [Set.mem_Ico]
  · have hfr : Int.fract (((1:ℝ)/2) * (-1)) = 1/2 := by
      rw [show ((1:ℝ)/2) * (-1) = -(1/2) by ring, Int.fract]
      norm_num
    rw [hfr]
    norm_num

/-- C8: each square-wave sample equals
`amplitude * sign(sin(2π · frequency · t_i))` with `sign(0) = 0`, hence lies
in `{-amplitude, 0, amplitude}`. -/
theorem square_formula_and_range (sample_rate : ℕ) (duration frequency amplitude : ℝ)
    (i : ℕ) (hi : i < sampleCount sample_rate duration) :
    (generate_wave ("square") frequency amplitude sample_rate duration).getD i 0
      = amplitude * np_sign (Real.sin (2 * Real.pi * frequency
          * (duration * i / (sampleCount sample_rate duration))))
    ∧ (generate_wave ("square") frequency amplitude sample_rate duration).getD i 0
        ∈ ({-amplitude, 0, amplitude} : Set ℝ) := by
  have hlen : i < (time_points sample_rate duration).length := by
    rw [time_points_length]
    exact hi
  have hform : (generate_wave ("square") frequency amplitude sample_rate duration).getD i 0
      = amplitude * np_sign (Real.sin (2 * Real.pi * frequency
          * (duration * i / (sampleCount sample_rate duration)))) := by
    rw [generate_wave_square, getD_map_of_lt _ _ _ hlen _ 0, time_points_getD _ _ _ hi]
  refine ⟨hform, ?_⟩
  rw [hform]
  rcases np_sign_cases (Real.sin (2 * Real.pi * frequency
      * (duration * i / (sampleCount sample_rate duration)))) with h | h | h
  · rw [h, mul_one]
    simp [Set.mem_insert_iff]
  · rw [h, mul_zero]
    simp [Set.mem_insert_iff]
  · rw [h]
    simp [Set.mem_insert_iff, mul_neg_one]

/-- Witness for C8 at the default config, sample 0. -/
theorem square_formula_and_range_witness :
    0 < sampleCount 1000 1
    ∧ (generate_wave ("square") 2 0.7 1000 1).getD 0 0 ∈ ({-0.7, 0, 0.7} : Set ℝ) := by
  have hc : 0 < sampleCount 1000 1 := by
    rw [sampleCount_default]
    norm_num
  exact ⟨hc, (square_formula_and_range 1000 1 2 0.7 0 hc).2⟩

/-- C5: if a payload's `frequency` or `amplitude` cannot be coerced by the
unguarded `float(...)`, the handler raises before synthesis and no
`waveform_data` message is emitted for that payload. -/
theorem bad_coercion_no_message (p : UpdatePayload)
    (h : exceptIsOk (pyFloat ((p.frequency?).getD (.numeric 1))) = false
       ∨ exceptIsOk (pyFloat ((p.amplitude?).getD (.numeric 0.5))) = false) :
    exceptIsOk (handle_update_params p) = false := by
  unfold handle_update_params
  cases hf : pyFloat ((p.frequency?).getD (.numeric 1)) with
  | error e => rfl
  | ok x =>
    cases ha : pyFloat ((p.amplitude?).getD (.numeric 0.5)) with
    | error e => rfl
    | ok y =>
      rcases h with h | h
      · rw [hf] at h
        simp [exceptIsOk] at h
      · rw [ha] at h
        simp [exceptIsOk] at h

/-- Witness for C5: a payload whose `frequency` field is a non-numeric
string. -/
theorem bad_coercion_no_message_witness :
    (exceptIsOk (pyFloat (((⟨some ("sine"), some (.nonNumeric ("abc")), none⟩
          : UpdatePayload).frequency?).getD (.numeric 1))) = false
      ∨ exceptIsOk (pyFloat (((⟨some ("sine"), some (.nonNumeric ("abc")), none⟩
          : UpdatePayload).amplitude?).getD (.numeric 0.5))) = false)
    ∧ exceptIsOk (handle_update_params
        ⟨some ("sine"), some (.nonNumeric ("abc")), none⟩) = false :=
  ⟨Or.inl rfl,
   bad_coercion_no_message ⟨some ("sine"), some (.nonNumeric ("abc")), none⟩ (Or.inl rfl)⟩

/-- C6: on connection open the handler emits exactly one `waveform_data`
message, whose params are `{type: "sine", frequency: 2.0, amplitude: 0.7}`
and whose data has length 1000 (default config). -/
theorem connect_default_message :
    test_connect.length = 1
    ∧ (test_connect.getD 0 ⟨[], ⟨"", 0, 0⟩⟩).params.type = "sine"
    ∧ (test_connect.getD 0 ⟨[], ⟨"", 0, 0⟩⟩).params.frequency = 2
    ∧ (test_connect.getD 0 ⟨[], ⟨"", 0, 0⟩⟩).params.amplitude = 0.7
    ∧ (test_connect.getD 0 ⟨[], ⟨"", 0, 0⟩⟩).data.length = 1000 := by
  refine ⟨rfl, rfl, rfl, rfl, ?_⟩
  show (generate_wave ("sine") 2 0.7 1000 1).length = 1000
  rw [generate_wave_length, sampleCount_default]

/-- C7: absent payload fields default to type "sine", frequency 1.0 and
amplitude 0.5 before clamping; the emitted message echoes the post-clamp
frequency and amplitude and passes the type string through unchanged, an
unrecognized type producing a silent (all-zero) waveform. -/
theorem defaults_and_echo (p : UpdatePayload) (f a : ℝ)
    (hf : pyFloat ((p.frequency?).getD (.numeric 1)) = .ok f)
    (ha : pyFloat ((p.amplitude?).getD (.numeric 0.5)) = .ok a) :
    handle_update_params p
      = .ok ⟨generate_wave ((p.type?).getD ("sine")) (clampFrequency f) (clampAmplitude a) 1000 1,
             ⟨(p.type?).getD ("sine"), clampFrequency f, clampAmplitude a⟩⟩
    ∧ ((p.type?).getD ("sine") ∉ (["sine", "square", "sawtooth"] : List String) →
        generate_wave ((p.type?).getD ("sine")) (clampFrequency f) (clampAmplitude a) 1000 1
          = List.replicate 1000 0) := by
  constructor
  · unfold handle_update_params
    rw [hf, ha]
  · intro hu
    simp only [List.mem_cons, List.mem_singleton, not_or] at hu
    obtain ⟨h1, h2, h3, -⟩ := hu
    rw [generate_wave_of_unknown _ _ _ _ _ h1 h2 h3, sampleCount_default]

/-- Witness for C7: the empty payload gets type "sine", frequency 1.0 and
amplitude 0.5. -/
theorem defaults_and_echo_witness :
    pyFloat (((⟨none, none, none⟩ : UpdatePayload).frequency?).getD (.numeric 1)) = .ok 1
    ∧ pyFloat (((⟨none, none, none⟩ : UpdatePayload).amplitude?).getD (.numeric 0.5)) = .ok 0.5
    ∧ handle_update_params ⟨none, none, none⟩
        = .ok ⟨generate_wave ("sine") (clampFrequency 1) (clampAmplitude 0.5) 1000 1,
               ⟨"sine", clampFrequency 1, clampAmplitude 0.5⟩⟩ :=
  ⟨rfl, rfl, (defaults_and_echo ⟨none, none, none⟩ 1 0.5 rfl rfl).1⟩
